import Mathlib

/-!
Shallow embedding of `src/src/Qt/PlayerPrivate.cpp` (openshot::PlayerPrivate):
the real-time playback loop (`run`), frame acquisition (`getFrame`), and
lifecycle (`startPlayback`).

Durations that the C++ code keeps in `std::chrono::duration<double, milli>`
are modelled as exact rationals (ℚ, in milliseconds); the integral
`duration_cast<std::chrono::milliseconds>` truncates toward zero, modelled by
`truncQ`.  Machine `int64_t` values are modelled as `Int`.
-/

namespace PlayerPrivate

/-- `openshot::Frame`: only its `number` field (an `int64_t`) is read here. -/
structure Frame where
  number : Int
deriving DecidableEq, Repr

/-- The two exception types caught by `PlayerPrivate::getFrame`
(`ReaderClosed`, `OutOfBoundsFrame` from `Exceptions.h`). -/
inductive FrameError where
  | ReaderClosed
  | OutOfBoundsFrame
deriving DecidableEq, Repr

/-- `reader->info`: the static stream metadata read by the loop. -/
structure ReaderInfo where
  has_audio : Bool
  has_video : Bool
  fps : ℚ
  video_length : Int
deriving DecidableEq, Repr

/-- The mutable fields of `PlayerPrivate` touched by the loop. -/
structure PlayerState where
  video_position : Int
  audio_position : Int
  last_video_position : Int
  speed : Int
  frame : Option Frame
  max_sleep_ms : Int
deriving DecidableEq, Repr

/-- `duration_cast<milliseconds>` applied to a fractional-millisecond
duration: C++ truncates the value toward zero. -/
def truncQ (q : ℚ) : Int := if 0 ≤ q then ⌊q⌋ else ⌈q⌉

/-- `frame_duration = 1000.0 / reader->info.fps.ToDouble()`, in ms. -/
def frame_duration (info : ReaderInfo) : ℚ := 1000 / info.fps

/-- Lines 146-147: `if (video_position + speed >= 1 && video_position + speed
<= reader->info.video_length) video_position = video_position + speed;`. -/
def advancePos (info : ReaderInfo) (p sp : Int) : Int :=
  if 1 ≤ p + sp ∧ p + sp ≤ info.video_length then p + sp else p

/-- Result of one `getFrame()` call: the returned shared_ptr (`none` models
the empty `std::shared_ptr<Frame>()`), the player state after the call, and
whether `reader->GetFrame` / `videoCache->setCurrentFramePosition` ran. -/
structure GetFrameResult where
  ret : Option Frame
  state : PlayerState
  fetched : Bool
  cache_hinted : Bool
deriving DecidableEq, Repr

/-- The fetch path of `getFrame` (lines 153-160 and the catch blocks):
hint the cache, call `reader->GetFrame(video_position)`, and turn the two
caught exceptions into an empty frame. -/
def fetchFrame (readerGetFrame : Int → Except FrameError Frame)
    (s1 : PlayerState) (p : Int) : GetFrameResult :=
  match readerGetFrame p with
  | Except.ok fr => ⟨some fr, s1, true, true⟩
  | Except.error _ => ⟨none, s1, true, true⟩

/-- `PlayerPrivate::getFrame` (lines 142-168): advance `video_position` by
`speed` when the target stays in `[1, video_length]`, then either return the
cached `frame` (when it exists, its number equals the new position, and the
position equals `last_video_position`) or fetch from the reader. -/
def getFrame (info : ReaderInfo) (readerGetFrame : Int → Except FrameError Frame)
    (s : PlayerState) : GetFrameResult :=
  let p := advancePos info s.video_position s.speed
  let s1 := { s with video_position := p }
  match s.frame with
  | some f =>
    if f.number = p ∧ p = s.last_video_position then
      ⟨some f, s1, false, false⟩
    else
      fetchFrame readerGetFrame s1 p
  | none => fetchFrame readerGetFrame s1 p

/-- Line 73-75 guard condition, evaluated after `frame = getFrame()`:
`(speed == 0 && video_position == last_video_position) ||
 (video_position > reader->info.video_length)`. -/
def guardCond (info : ReaderInfo) (sp p last : Int) : Prop :=
  (sp = 0 ∧ p = last) ∨ p > info.video_length

instance (info : ReaderInfo) (sp p last : Int) : Decidable (guardCond info sp p last) := by
  unfold guardCond
  infer_instance

/-- Line 126: `video_position += std::fabs(video_frame_diff) / 2;` —
`int64_t += double` truncates the sum toward zero. -/
def skipPos (p d : Int) : Int := truncQ ((p : ℚ) + (d.natAbs : ℚ) / 2)

/-- Observable outcome of one iteration of the `while` body in
`PlayerPrivate::run` (lines 65-138). `slept` lists the durations (ms) passed
to `sleep_for`, in order; `sleep_time` is the value of the C++ `sleep_time`
variable at the end of the iteration (0 in the guard branch, which never
computes it). -/
structure IterResult where
  state : PlayerState
  guard_taken : Bool
  rendered : Bool
  audio_seeked : Bool
  audio_sampled : Bool
  sleep_time : Int
  slept : List ℚ
  fetched : Bool
deriving DecidableEq, Repr

/-- One iteration of the `run` loop.  External inputs: the reader behaviour
`readerGetFrame`, the measured `render_time = time2 - time1` (ms), and the
position `audioPos` that `audioPlayback->getCurrentFramePosition()` reports
this iteration. -/
def runIter (info : ReaderInfo) (readerGetFrame : Int → Except FrameError Frame)
    (render_time : ℚ) (audioPos : Int) (s : PlayerState) : IterResult :=
  let g := getFrame info readerGetFrame s
  let s1 := { g.state with frame := g.ret }
  if guardCond info s1.speed s1.video_position s1.last_video_position then
    { state := { s1 with speed := 0 }, guard_taken := true, rendered := false,
      audio_seeked := false, audio_sampled := false, sleep_time := 0,
      slept := [frame_duration info], fetched := g.fetched }
  else
    let s2 := { s1 with last_video_position := s1.video_position }
    let s3 := if info.has_audio ∧ info.has_video then
        { s2 with audio_position := audioPos } else s2
    let video_frame_diff : Int :=
      if info.has_audio ∧ info.has_video then s2.video_position - audioPos else 0
    let sleep0 : Int := truncQ (frame_duration info - render_time)
    let step :=
      if 0 < video_frame_diff ∧ info.has_audio ∧ info.has_video then
        (s3, sleep0 + truncQ ((video_frame_diff : ℚ) * frame_duration info))
      else if video_frame_diff < -10 ∧ info.has_audio ∧ info.has_video then
        ({ s3 with video_position := skipPos s3.video_position video_frame_diff }, 0)
      else
        (s3, sleep0)
    let slept := if 0 < step.2 ∧ step.2 < s.max_sleep_ms then [(step.2 : ℚ)] else []
    { state := step.1, guard_taken := false, rendered := true,
      audio_seeked := decide (info.has_audio ∧ info.has_video ∧ s1.speed ≠ (1 : Int)),
      audio_sampled := decide (info.has_audio ∧ info.has_video),
      sleep_time := step.2, slept := slept, fetched := g.fetched }

/-- Side effects of `startPlayback` other than the return value. -/
inductive PlayerAction where
  | stopPlayback
  | startThread
deriving DecidableEq, Repr

/-- `PlayerPrivate::startPlayback` (lines 171-178): returns `false` when
`video_position < 0`; otherwise calls `stopPlayback()`, then `startThread(1)`,
and returns `true`. -/
def startPlayback (video_position : Int) : Bool × List PlayerAction :=
  if video_position < 0 then (false, [])
  else (true, [PlayerAction.stopPlayback, PlayerAction.startThread])

/-- `frame = getFrame()` as executed by line 70 of the loop: the state after
`getFrame`, with the returned pointer stored in the `frame` member. -/
def getFrameStep (info : ReaderInfo) (readerGetFrame : Int → Except FrameError Frame)
    (s : PlayerState) : PlayerState :=
  let g := getFrame info readerGetFrame s
  { g.state with frame := g.ret }

/- ### Concrete fixtures used by witnesses and counterexamples -/

/-- A reader that always succeeds, returning the frame numbered by the
requested position. -/
def rgOk : Int → Except FrameError Frame := fun p => Except.ok ⟨p⟩

/-- A reader whose source has been released: every request raises
`ReaderClosed`. -/
def rgErr : Int → Except FrameError Frame := fun _ => Except.error FrameError.ReaderClosed

/-- Stream fixture with audio and video, fps 30, 100 frames. -/
def infoW : ReaderInfo :=
  { has_audio := true, has_video := true, fps := 30, video_length := 100 }

/-- Stream fixture with fps 2000: one frame lasts half a millisecond. -/
def info4F : ReaderInfo :=
  { has_audio := true, has_video := true, fps := 2000, video_length := 100 }

/-- Stream fixture with fps 1/4: one frame lasts 4000 ms. -/
def info9F : ReaderInfo :=
  { has_audio := true, has_video := true, fps := 1/4, video_length := 100 }

/-- In-range fixture: position 5, speed 1, nothing cached. -/
def sW : PlayerState :=
  { video_position := 5, audio_position := 0, last_video_position := 4,
    speed := 1, frame := none, max_sleep_ms := 3000 }

/-- Fixture for the skip-ahead path: audio reports far ahead of video. -/
def s2F : PlayerState :=
  { video_position := 95, audio_position := 0, last_video_position := 94,
    speed := 1, frame := some ⟨96⟩, max_sleep_ms := 3000 }

/-- Paused fixture: `speed = 0`, position 5 already displayed and cached. -/
def s6F : PlayerState :=
  { video_position := 5, audio_position := 3, last_video_position := 5,
    speed := 0, frame := some ⟨5⟩, max_sleep_ms := 3000 }

/-- Fixture for Scenario A: normal speed at position 20, audio far ahead. -/
def s5F : PlayerState :=
  { video_position := 20, audio_position := 0, last_video_position := 20,
    speed := 1, frame := some ⟨20⟩, max_sleep_ms := 3000 }

/-- Scenario A stream fixture: fps 24 (`frame_duration = 125/3 ms`). -/
def info5F : ReaderInfo :=
  { has_audio := true, has_video := true, fps := 24, video_length := 100 }

/- ### Basic lemmas about the embedding -/

theorem getFrame_state (info : ReaderInfo) (rg : Int → Except FrameError Frame)
    (s : PlayerState) :
    (getFrame info rg s).state =
      { s with video_position := advancePos info s.video_position s.speed } := by
  unfold getFrame fetchFrame
  cases s.frame with
  | none => cases h : rg (advancePos info s.video_position s.speed) <;> simp [h]
  | some f =>
    by_cases h : f.number = advancePos info s.video_position s.speed ∧
        advancePos info s.video_position s.speed = s.last_video_position
    · simp [h]
    · simp only [h, if_false]
      cases h2 : rg (advancePos info s.video_position s.speed) <;> simp [h2]

theorem advancePos_of_mem (info : ReaderInfo) (p sp : Int)
    (h : 1 ≤ p + sp ∧ p + sp ≤ info.video_length) :
    advancePos info p sp = p + sp := by
  unfold advancePos
  exact if_pos h

theorem advancePos_of_not_mem (info : ReaderInfo) (p sp : Int)
    (h : ¬(1 ≤ p + sp ∧ p + sp ≤ info.video_length)) :
    advancePos info p sp = p := by
  unfold advancePos
  exact if_neg h

lemma truncQ_of_nonneg {q : ℚ} (h : 0 ≤ q) : truncQ q = ⌊q⌋ := by
  unfold truncQ
  exact if_pos h

lemma truncQ_nonneg {q : ℚ} (h : 0 ≤ q) : 0 ≤ truncQ q := by
  rw [truncQ_of_nonneg h]
  exact Int.le_floor.mpr (by exact_mod_cast h)

lemma truncQ_eq_zero {q : ℚ} (h0 : 0 ≤ q) (h1 : q < 1) : truncQ q = 0 := by
  rw [truncQ_of_nonneg h0]
  rw [Int.floor_eq_zero_iff]
  exact ⟨h0, h1⟩

lemma truncQ_pos {q : ℚ} (h : 1 ≤ q) : 1 ≤ truncQ q := by
  rw [truncQ_of_nonneg (le_trans zero_le_one h)]
  exact Int.le_floor.mpr (by exact_mod_cast h)

/-- For a nonnegative position the truncation toward zero in the skip-ahead
is exactly "add half the absolute deficit, rounded down". -/
lemma skipPos_nonneg {p : Int} (hp : 0 ≤ p) (d : Int) :
    skipPos p d = p + ((d.natAbs / 2 : ℕ) : ℤ) := by
  unfold skipPos
  have h0 : (0 : ℚ) ≤ (p : ℚ) + (d.natAbs : ℚ) / 2 := by positivity
  rw [truncQ_of_nonneg h0]
  rw [show ((p : ℚ) + (d.natAbs : ℚ) / 2) = ((p : ℤ) : ℚ) + (d.natAbs : ℚ) / 2 from rfl]
  rw [Int.floor_int_add]
  congr 1
  rw [show ((d.natAbs : ℚ) / 2) = (((d.natAbs : ℤ) : ℚ) / ((2 : ℕ) : ℚ)) by
    rw [Int.cast_natCast, Nat.cast_ofNat]]
  rw [Rat.floor_intCast_div_natCast]
  omega

/- ### C1 -/

/-- C1: one `getFrame` advance step sets `video_position` to exactly
`p + speed` whenever `1 ≤ p + speed ≤ video_length`, and leaves
`video_position` unchanged whenever `p + speed` is outside that range. -/
theorem c1_getFrame_advance (info : ReaderInfo) (rg : Int → Except FrameError Frame)
    (s : PlayerState) :
    (1 ≤ s.video_position + s.speed ∧ s.video_position + s.speed ≤ info.video_length →
      (getFrame info rg s).state.video_position = s.video_position + s.speed)
    ∧ (¬(1 ≤ s.video_position + s.speed ∧ s.video_position + s.speed ≤ info.video_length) →
      (getFrame info rg s).state.video_position = s.video_position) := by
  constructor
  · intro h
    rw [getFrame_state]
    simpa using advancePos_of_mem info s.video_position s.speed h
  · intro h
    rw [getFrame_state]
    simpa using advancePos_of_not_mem info s.video_position s.speed h

/-- C1 witness: at position 5 with speed 1 and length 100 the advance lands
on 6; at position 100 with speed 1 it stays at 100. -/
theorem c1_witness :
    (getFrame infoW rgOk sW).state.video_position = 6 ∧
    (getFrame infoW rgOk { sW with video_position := 100 }).state.video_position = 100 := by
  constructor
  · exact (c1_getFrame_advance infoW rgOk sW).1 (by decide)
  · exact (c1_getFrame_advance infoW rgOk { sW with video_position := 100 }).2 (by decide)

lemma truncQ_eq_of {q : ℚ} (n : ℤ) (h0 : 0 ≤ q) (h1 : (n : ℚ) ≤ q) (h2 : q < n + 1) :
    truncQ q = n := by
  rw [truncQ_of_nonneg h0]
  exact Int.floor_eq_iff.mpr ⟨h1, h2⟩

lemma advancePos_speed_zero (info : ReaderInfo) (p : Int) :
    advancePos info p 0 = p := by
  unfold advancePos
  split_ifs <;> omega

/- ### Lemmas about getFrame's cache behaviour -/

lemma getFrame_not_fetched_iff (info : ReaderInfo) (rg : Int → Except FrameError Frame)
    (s : PlayerState) :
    (getFrame info rg s).fetched = false ↔
      ∃ f, s.frame = some f ∧ f.number = advancePos info s.video_position s.speed ∧
        advancePos info s.video_position s.speed = s.last_video_position := by
  unfold getFrame fetchFrame
  cases hfr : s.frame with
  | none => cases h : rg (advancePos info s.video_position s.speed) <;> simp [h]
  | some f =>
    by_cases hc : f.number = advancePos info s.video_position s.speed ∧
        advancePos info s.video_position s.speed = s.last_video_position
    · simp [hc]
    · simp only [hc, if_false]
      cases h : rg (advancePos info s.video_position s.speed) <;>
        simp_all [not_and_or]

lemma getFrame_ret_of_not_fetched (info : ReaderInfo) (rg : Int → Except FrameError Frame)
    (s : PlayerState) (h : (getFrame info rg s).fetched = false) :
    (getFrame info rg s).ret = s.frame := by
  obtain ⟨f, hf, hn, hl⟩ := (getFrame_not_fetched_iff info rg s).mp h
  unfold getFrame
  simp [hf, hn, hl]

lemma getFrameStep_paused_fixed (info : ReaderInfo) (rg : Int → Except FrameError Frame)
    (s : PlayerState) (h0 : s.speed = 0) (hl : s.video_position = s.last_video_position)
    (f : Frame) (hf : s.frame = some f) (hn : f.number = s.video_position) :
    (getFrame info rg s).ret = s.frame ∧ (getFrame info rg s).fetched = false ∧
      getFrameStep info rg s = s := by
  rcases s with ⟨vp, apos, lp, sp, fr, ms⟩
  simp only at h0 hl hf hn
  subst h0 hl hf
  have hadv : advancePos info vp 0 = vp := advancePos_speed_zero info vp
  unfold getFrameStep getFrame
  simp [hadv, hn]

/- ### General characterization of one loop iteration -/

/-- The guard branch of the loop (lines 73-79) in full. -/
lemma runIter_guard (info : ReaderInfo) (rg : Int → Except FrameError Frame)
    (rt : ℚ) (ap : Int) (s : PlayerState)
    (hg : guardCond info s.speed (advancePos info s.video_position s.speed)
      s.last_video_position) :
    runIter info rg rt ap s =
      { state := { s with
                   video_position := advancePos info s.video_position s.speed,
                   frame := (getFrame info rg s).ret, speed := 0 },
        guard_taken := true, rendered := false, audio_seeked := false,
        audio_sampled := false, sleep_time := 0,
        slept := [frame_duration info], fetched := (getFrame info rg s).fetched } := by
  simp [runIter, getFrame_state, hg]

/-- How `video_position` evolves in one iteration: the bounds-checked
advance, then (when the guard does not fire, both media are present, and the
video trails audio by more than 10 frames) the unchecked skip-ahead. -/
lemma runIter_position_eq (info : ReaderInfo) (rg : Int → Except FrameError Frame)
    (rt : ℚ) (ap : Int) (s : PlayerState) :
    (runIter info rg rt ap s).state.video_position =
      (if guardCond info s.speed (advancePos info s.video_position s.speed)
          s.last_video_position then
        advancePos info s.video_position s.speed
      else if advancePos info s.video_position s.speed - ap < -10 ∧
          info.has_audio ∧ info.has_video then
        skipPos (advancePos info s.video_position s.speed)
          (advancePos info s.video_position s.speed - ap)
      else advancePos info s.video_position s.speed) := by
  by_cases hg : guardCond info s.speed (advancePos info s.video_position s.speed)
      s.last_video_position
  · simp [runIter, getFrame_state, hg]
  · by_cases ha : info.has_audio = true
    · by_cases hv : info.has_video = true
      · simp only [runIter, getFrame_state, hg, ha, hv, and_true, true_and,
          if_false, ite_true, ite_false, if_true]
        split_ifs <;> simp_all
        all_goals omega
      · simp only [runIter, getFrame_state, hg, ha, hv, and_true, true_and,
          and_false, false_and, if_false, ite_true, ite_false, if_true]
        split_ifs <;> simp_all
    · simp only [runIter, getFrame_state, hg, ha, and_false, false_and,
        if_false, ite_true, ite_false, if_true]
      split_ifs <;> simp_all

/-- Positive drift (video ahead of audio): lines 113-122 add the truncated
`video_frame_diff * frame_duration` to the truncated base sleep time. -/
lemma runIter_sleep_pos_drift (info : ReaderInfo) (rg : Int → Except FrameError Frame)
    (rt : ℚ) (ap : Int) (s : PlayerState)
    (ha : info.has_audio = true) (hv : info.has_video = true)
    (hg : ¬ guardCond info s.speed (advancePos info s.video_position s.speed)
      s.last_video_position)
    (hd : 0 < advancePos info s.video_position s.speed - ap) :
    (runIter info rg rt ap s).sleep_time =
      truncQ (frame_duration info - rt) +
        truncQ (((advancePos info s.video_position s.speed - ap : ℤ) : ℚ) *
          frame_duration info) := by
  simp [runIter, getFrame_state, hg, ha, hv, hd]

/-- Skip-ahead (video more than 10 frames behind audio): lines 124-128 move
`video_position` forward by the truncated half-deficit and zero the sleep. -/
lemma runIter_skip (info : ReaderInfo) (rg : Int → Except FrameError Frame)
    (rt : ℚ) (ap : Int) (s : PlayerState)
    (ha : info.has_audio = true) (hv : info.has_video = true)
    (hg : ¬ guardCond info s.speed (advancePos info s.video_position s.speed)
      s.last_video_position)
    (hd : advancePos info s.video_position s.speed - ap < -10) :
    (runIter info rg rt ap s).sleep_time = 0 ∧
    (runIter info rg rt ap s).slept = [] ∧
    (runIter info rg rt ap s).state.video_position =
      skipPos (advancePos info s.video_position s.speed)
        (advancePos info s.video_position s.speed - ap) := by
  have hnd : ¬ (0 < advancePos info s.video_position s.speed - ap) := by omega
  simp [runIter, getFrame_state, hg, ha, hv, hd, hnd]

/-- No drift correction: when no audio/video pair is present, or the deficit
is small (`-10 ≤ diff ≤ 0`), the sleep time is just the truncated
`frame_duration - render_time`. -/
lemma runIter_sleep_no_drift (info : ReaderInfo) (rg : Int → Except FrameError Frame)
    (rt : ℚ) (ap : Int) (s : PlayerState)
    (hg : ¬ guardCond info s.speed (advancePos info s.video_position s.speed)
      s.last_video_position)
    (hnd : info.has_audio = true → info.has_video = true →
      (-10 ≤ advancePos info s.video_position s.speed - ap ∧
       advancePos info s.video_position s.speed - ap ≤ 0)) :
    (runIter info rg rt ap s).sleep_time = truncQ (frame_duration info - rt) := by
  by_cases ha : info.has_audio = true
  · by_cases hv : info.has_video = true
    · obtain ⟨h1, h2⟩ := hnd ha hv
      have hd1 : ¬ (0 < advancePos info s.video_position s.speed - ap) := by omega
      have hd2 : ¬ (advancePos info s.video_position s.speed - ap < -10) := by omega
      simp [runIter, getFrame_state, hg, ha, hv, hd1, hd2]
    · simp [runIter, getFrame_state, hg, ha, hv]
  · simp [runIter, getFrame_state, hg, ha]

/-- The end-of-iteration sleep rule (lines 130-136): in a non-guard
iteration the loop sleeps `sleep_time` exactly when
`0 < sleep_time < max_sleep_ms`. -/
lemma runIter_slept_noGuard (info : ReaderInfo) (rg : Int → Except FrameError Frame)
    (rt : ℚ) (ap : Int) (s : PlayerState)
    (hg : ¬ guardCond info s.speed (advancePos info s.video_position s.speed)
      s.last_video_position) :
    (runIter info rg rt ap s).slept =
      (if 0 < (runIter info rg rt ap s).sleep_time ∧
          (runIter info rg rt ap s).sleep_time < s.max_sleep_ms then
        [((runIter info rg rt ap s).sleep_time : ℚ)]
      else []) := by
  simp only [runIter, getFrame_state, hg, if_false, ite_false]

/- ### C2 -/

/-- C2 counterexample: with `video_position = 95`, `speed = 1`,
`video_length = 100` and the audio engine reporting position 196, the
iteration moves `video_position` to 146 — a change of 51, not of `speed`,
landing strictly beyond `video_length`. -/
theorem c2_counterexample :
    s2F.speed = 1 ∧ s2F.video_position = 95 ∧ infoW.video_length = 100 ∧
    (runIter infoW rgOk 10 196 s2F).state.video_position = 146 ∧
    (runIter infoW rgOk 10 196 s2F).state.video_position ≠ s2F.video_position + s2F.speed ∧
    (runIter infoW rgOk 10 196 s2F).state.video_position ≠ s2F.video_position ∧
    infoW.video_length < (runIter infoW rgOk 10 196 s2F).state.video_position := by
  have h := runIter_position_eq infoW rgOk 10 196 s2F
  rw [if_neg (by decide), if_pos (by decide)] at h
  rw [skipPos_nonneg (p := advancePos infoW s2F.video_position s2F.speed)
    (by decide)] at h
  refine ⟨by decide, by decide, by decide, ?_, ?_, ?_, ?_⟩ <;> rw [h] <;> decide

/-- C2 amended: per iteration, `video_position` becomes the bounds-checked
`advancePos` value — except that when audio and video are both present and
the advanced position trails the reported audio position by more than 10
frames, the skip-ahead correction further moves it to `skipPos` (adding half
the deficit), with no bounds check. -/
theorem c2_amended (info : ReaderInfo) (rg : Int → Except FrameError Frame)
    (rt : ℚ) (ap : Int) (s : PlayerState) :
    (runIter info rg rt ap s).state.video_position =
      (if guardCond info s.speed (advancePos info s.video_position s.speed)
          s.last_video_position then
        advancePos info s.video_position s.speed
      else if advancePos info s.video_position s.speed - ap < -10 ∧
          info.has_audio ∧ info.has_video then
        skipPos (advancePos info s.video_position s.speed)
          (advancePos info s.video_position s.speed - ap)
      else advancePos info s.video_position s.speed) :=
  runIter_position_eq info rg rt ap s

/- ### C6 -/

/-- C6: whenever the pause/end-of-stream guard fires — `speed = 0` with the
(post-advance) position equal to `last_video_position`, or position beyond
`video_length` — the iteration forces `speed` to 0, sleeps exactly one
`frame_duration`, renders nothing, samples no audio, and leaves
`last_video_position`, `audio_position` and the advanced `video_position`
untouched by any drift correction. -/
theorem c6_pause_guard (info : ReaderInfo) (rg : Int → Except FrameError Frame)
    (rt : ℚ) (ap : Int) (s : PlayerState)
    (hg : guardCond info s.speed (advancePos info s.video_position s.speed)
      s.last_video_position) :
    (runIter info rg rt ap s).guard_taken = true ∧
    (runIter info rg rt ap s).state.speed = 0 ∧
    (runIter info rg rt ap s).rendered = false ∧
    (runIter info rg rt ap s).audio_sampled = false ∧
    (runIter info rg rt ap s).audio_seeked = false ∧
    (runIter info rg rt ap s).slept = [frame_duration info] ∧
    (runIter info rg rt ap s).state.last_video_position = s.last_video_position ∧
    (runIter info rg rt ap s).state.audio_position = s.audio_position ∧
    (runIter info rg rt ap s).state.video_position =
      advancePos info s.video_position s.speed := by
  simp [runIter, getFrame_state, hg]

/-- C6 witness: paused (`speed = 0`) at position 5 with
`last_video_position = 5`, fps 30: the guard fires, one frame-duration
sleep, nothing rendered. -/
theorem c6_witness :
    (runIter infoW rgOk 10 0 s6F).slept = [frame_duration infoW] ∧
    (runIter infoW rgOk 10 0 s6F).rendered = false :=
  ⟨(c6_pause_guard infoW rgOk 10 0 s6F (by decide)).2.2.2.2.2.1,
   (c6_pause_guard infoW rgOk 10 0 s6F (by decide)).2.2.1⟩

/- ### C7 -/

/-- C7: `startPlayback` returns `false` exactly when `video_position < 0`,
doing nothing in that case; for every `video_position ≥ 0` (including the
boundary 0) it stops prior playback, then starts the thread, returning
`true`. -/
theorem c7_startPlayback (p : Int) :
    ((startPlayback p).1 = false ↔ p < 0)
    ∧ (p < 0 → (startPlayback p).2 = [])
    ∧ (0 ≤ p → (startPlayback p).1 = true ∧
        (startPlayback p).2 = [PlayerAction.stopPlayback, PlayerAction.startThread]) := by
  by_cases h : p < 0
  · simp [startPlayback, h]
  · simp [startPlayback, h]

/-- C7 witness: the boundary case `video_position = 0` succeeds and performs
stop-then-start. -/
theorem c7_witness :
    (startPlayback 0).1 = true ∧
    (startPlayback 0).2 = [PlayerAction.stopPlayback, PlayerAction.startThread] :=
  (c7_startPlayback 0).2.2 (le_refl 0)

/- ### C3 -/

/-- C3: `getFrame` skips the fetch exactly when a cached frame exists whose
number equals the post-advance `video_position` and that position equals
`last_video_position`; the cached reference is returned unchanged, and in
the paused case (`speed = 0`, position unchanged, matching cached frame) a
`getFrame` step is the identity, so repeated calls return the identical
cached frame and never call the reader again. -/
theorem c3_cached_frame (info : ReaderInfo) (rg : Int → Except FrameError Frame)
    (s : PlayerState) :
    ((getFrame info rg s).fetched = false ↔
      ∃ f, s.frame = some f ∧ f.number = advancePos info s.video_position s.speed ∧
        advancePos info s.video_position s.speed = s.last_video_position) ∧
    ((getFrame info rg s).fetched = false → (getFrame info rg s).ret = s.frame) ∧
    (s.speed = 0 → s.video_position = s.last_video_position →
      ∀ f, s.frame = some f → f.number = s.video_position →
        (getFrame info rg s).ret = s.frame ∧ (getFrame info rg s).fetched = false ∧
        getFrameStep info rg s = s) := by
  refine ⟨getFrame_not_fetched_iff info rg s, getFrame_ret_of_not_fetched info rg s, ?_⟩
  intro h0 hl f hf hn
  exact getFrameStep_paused_fixed info rg s h0 hl f hf hn

/-- C3 witness: paused at position 5 with frame 5 cached, `getFrame` returns
the cached frame, does not fetch, and leaves the state fixed. -/
theorem c3_witness :
    (getFrame infoW rgOk s6F).ret = s6F.frame ∧
    (getFrame infoW rgOk s6F).fetched = false ∧
    getFrameStep infoW rgOk s6F = s6F :=
  (c3_cached_frame infoW rgOk s6F).2.2 rfl rfl ⟨5⟩ rfl rfl

/- ### C5 -/

/-- C5: when both media are present, the guard does not fire, and video
trails the reported audio position by more than 10 frames, the iteration
adds exactly `⌊|video_frame_diff| / 2⌋` to the (nonnegative, post-advance)
`video_position` and forces `sleep_time` to 0, sleeping nothing that tick. -/
theorem c5_skip_ahead (info : ReaderInfo) (rg : Int → Except FrameError Frame)
    (rt : ℚ) (ap : Int) (s : PlayerState)
    (ha : info.has_audio = true) (hv : info.has_video = true)
    (hg : ¬ guardCond info s.speed (advancePos info s.video_position s.speed)
      s.last_video_position)
    (hd : advancePos info s.video_position s.speed - ap < -10)
    (hp : 0 ≤ advancePos info s.video_position s.speed) :
    (runIter info rg rt ap s).state.video_position =
      advancePos info s.video_position s.speed +
        (((advancePos info s.video_position s.speed - ap).natAbs / 2 : ℕ) : ℤ) ∧
    (runIter info rg rt ap s).sleep_time = 0 ∧
    (runIter info rg rt ap s).slept = [] := by
  obtain ⟨h1, h2, h3⟩ := runIter_skip info rg rt ap s ha hv hg hd
  refine ⟨?_, h1, h2⟩
  rw [h3, skipPos_nonneg hp]

/-- C5 witness (Scenario A): fps 24, position 21 after advance, audio at 36
(`diff = -15`) skips forward by 7 to 28 with zero sleep; audio at 41
(`diff = -20`) skips forward by 10 to 31. -/
theorem c5_witness :
    ((runIter info5F rgOk 10 36 s5F).state.video_position = 28 ∧
      (runIter info5F rgOk 10 36 s5F).sleep_time = 0 ∧
      (runIter info5F rgOk 10 36 s5F).slept = []) ∧
    (runIter info5F rgOk 10 41 s5F).state.video_position = 31 := by
  have h1 := c5_skip_ahead info5F rgOk 10 36 s5F rfl rfl (by decide) (by decide) (by decide)
  have h2 := c5_skip_ahead info5F rgOk 10 41 s5F rfl rfl (by decide) (by decide) (by decide)
  refine ⟨⟨?_, h1.2.1, h1.2.2⟩, ?_⟩
  · rw [h1.1]
    decide
  · rw [h2.1]
    decide

/- ### C4 -/

/-- C4 counterexample: at fps 2000 (`frame_duration = 1/2 ms`) a positive
drift of 1 frame adds `truncQ (1 * 1/2) = 0` ms, so the resulting
`sleep_time` equals the unadjusted value instead of strictly exceeding it. -/
theorem c4_counterexample :
    (0 : ℤ) < advancePos info4F sW.video_position sW.speed - 5 ∧
    info4F.has_audio = true ∧ info4F.has_video = true ∧
    (runIter info4F rgOk 0 5 sW).sleep_time = truncQ (frame_duration info4F - 0) ∧
    ¬ (truncQ (frame_duration info4F - 0) < (runIter info4F rgOk 0 5 sW).sleep_time) := by
  have h := runIter_sleep_pos_drift info4F rgOk 0 5 sW rfl rfl (by decide) (by decide)
  have hadj : truncQ (((advancePos info4F sW.video_position sW.speed - 5 : ℤ) : ℚ) *
      frame_duration info4F) = 0 := by
    apply truncQ_eq_zero <;> norm_num [advancePos, info4F, sW, frame_duration]
  rw [hadj, add_zero] at h
  exact ⟨by decide, rfl, rfl, h, by rw [h]; exact lt_irrefl _⟩

/-- C4 amended: with positive drift the resulting `sleep_time` equals the
unadjusted truncation plus the truncated `video_frame_diff * frame_duration`;
it is therefore never smaller, and strictly greater whenever the product is
at least one millisecond (the truncation can otherwise contribute 0). -/
theorem c4_amended (info : ReaderInfo) (rg : Int → Except FrameError Frame)
    (rt : ℚ) (ap : Int) (s : PlayerState)
    (ha : info.has_audio = true) (hv : info.has_video = true)
    (hg : ¬ guardCond info s.speed (advancePos info s.video_position s.speed)
      s.last_video_position)
    (hd : 0 < advancePos info s.video_position s.speed - ap)
    (hfps : 0 < info.fps) :
    (runIter info rg rt ap s).sleep_time =
      truncQ (frame_duration info - rt) +
        truncQ (((advancePos info s.video_position s.speed - ap : ℤ) : ℚ) *
          frame_duration info) ∧
    truncQ (frame_duration info - rt) ≤ (runIter info rg rt ap s).sleep_time ∧
    (1 ≤ ((advancePos info s.video_position s.speed - ap : ℤ) : ℚ) * frame_duration info →
      truncQ (frame_duration info - rt) < (runIter info rg rt ap s).sleep_time) := by
  have h := runIter_sleep_pos_drift info rg rt ap s ha hv hg hd
  have hfd : 0 < frame_duration info := by
    unfold frame_duration
    exact div_pos (by norm_num) hfps
  have hprod : 0 ≤ ((advancePos info s.video_position s.speed - ap : ℤ) : ℚ) *
      frame_duration info := mul_nonneg (by exact_mod_cast hd.le) hfd.le
  refine ⟨h, ?_, ?_⟩
  · rw [h]
    have := truncQ_nonneg hprod
    omega
  · intro h1
    rw [h]
    have := truncQ_pos h1
    omega

/-- C4 witness: fps 30, drift 2 frames (`2 * 100/3 ≥ 1` ms): the adjusted
sleep time strictly exceeds the unadjusted one. -/
theorem c4_witness :
    truncQ (frame_duration infoW - 10) < (runIter infoW rgOk 10 4 sW).sleep_time :=
  (c4_amended infoW rgOk 10 4 sW rfl rfl (by decide) (by decide)
    (by norm_num [infoW])).2.2
    (by norm_num [advancePos, infoW, sW, frame_duration])

/- ### C10 -/

/-- C10: `sleep_time` is the toward-zero truncation of
`frame_duration - render_time`, the positive-drift adjustment adds the
toward-zero truncation of `video_frame_diff * frame_duration`, and whenever
that product is below 1 ms the adjustment adds exactly 0, leaving
`sleep_time` unchanged. -/
theorem c10_truncation (info : ReaderInfo) (rg : Int → Except FrameError Frame)
    (rt : ℚ) (ap : Int) (s : PlayerState)
    (ha : info.has_audio = true) (hv : info.has_video = true)
    (hg : ¬ guardCond info s.speed (advancePos info s.video_position s.speed)
      s.last_video_position)
    (hd : 0 < advancePos info s.video_position s.speed - ap)
    (hfps : 0 < info.fps) :
    (runIter info rg rt ap s).sleep_time =
      truncQ (frame_duration info - rt) +
        truncQ (((advancePos info s.video_position s.speed - ap : ℤ) : ℚ) *
          frame_duration info) ∧
    (((advancePos info s.video_position s.speed - ap : ℤ) : ℚ) * frame_duration info < 1 →
      (runIter info rg rt ap s).sleep_time = truncQ (frame_duration info - rt)) := by
  have h := runIter_sleep_pos_drift info rg rt ap s ha hv hg hd
  refine ⟨h, fun hlt => ?_⟩
  have hfd : 0 < frame_duration info := by
    unfold frame_duration
    exact div_pos (by norm_num) hfps
  rw [h, truncQ_eq_zero (mul_nonneg (by exact_mod_cast hd.le) hfd.le) hlt, add_zero]

/-- C10 witness: fps 2000, drift 1 frame: `1 * 1/2 < 1` ms, so the adjusted
sleep time equals the unadjusted truncation. -/
theorem c10_witness :
    (runIter info4F rgOk 0 5 sW).sleep_time = truncQ (frame_duration info4F - 0) :=
  (c10_truncation info4F rgOk 0 5 sW rfl rfl (by decide) (by decide)
    (by norm_num [info4F])).2
    (by norm_num [advancePos, info4F, sW, frame_duration])

/- ### C9 -/

/-- C9 counterexample: at fps 1/4 the pause-guard sleep lasts one
`frame_duration = 4000` ms, which is not below `max_sleep_ms = 3000`: the
guard sleep is not bounded by `max_sleep_ms`. -/
theorem c9_counterexample :
    s6F.max_sleep_ms = 3000 ∧
    (runIter info9F rgOk 0 0 s6F).slept = [(4000 : ℚ)] ∧
    ¬ ((4000 : ℚ) < (s6F.max_sleep_ms : ℚ)) := by
  refine ⟨rfl, ?_, by norm_num [s6F]⟩
  rw [runIter_guard info9F rgOk 0 0 s6F (by decide)]
  norm_num [frame_duration, info9F]

/-- C9 amended: in every non-guard iteration the end-of-iteration sleep is
performed exactly when `0 < sleep_time < max_sleep_ms` (strict on both
sides), so every such sleep is strictly below `max_sleep_ms`; the pause
guard instead sleeps one full `frame_duration`, which `max_sleep_ms` does
not bound. -/
theorem c9_amended (info : ReaderInfo) (rg : Int → Except FrameError Frame)
    (rt : ℚ) (ap : Int) (s : PlayerState)
    (hg : ¬ guardCond info s.speed (advancePos info s.video_position s.speed)
      s.last_video_position) :
    ((0 < (runIter info rg rt ap s).sleep_time ∧
        (runIter info rg rt ap s).sleep_time < s.max_sleep_ms) →
      (runIter info rg rt ap s).slept = [((runIter info rg rt ap s).sleep_time : ℚ)]) ∧
    (¬ (0 < (runIter info rg rt ap s).sleep_time ∧
        (runIter info rg rt ap s).sleep_time < s.max_sleep_ms) →
      (runIter info rg rt ap s).slept = []) ∧
    (∀ q ∈ (runIter info rg rt ap s).slept, q < (s.max_sleep_ms : ℚ)) := by
  have h := runIter_slept_noGuard info rg rt ap s hg
  refine ⟨fun hc => by rw [h, if_pos hc], fun hc => by rw [h, if_neg hc], ?_⟩
  intro q hq
  rw [h] at hq
  by_cases hc : 0 < (runIter info rg rt ap s).sleep_time ∧
      (runIter info rg rt ap s).sleep_time < s.max_sleep_ms
  · rw [if_pos hc] at hq
    simp only [List.mem_singleton] at hq
    rw [hq]
    exact_mod_cast hc.2
  · rw [if_neg hc] at hq
    simp at hq

/-- C9 witness: fps 30, 10 ms render time, no drift: `sleep_time = 23` ms
lies strictly between 0 and 3000, so the loop sleeps exactly that. -/
theorem c9_witness :
    (runIter infoW rgOk 10 6 sW).slept = [((runIter infoW rgOk 10 6 sW).sleep_time : ℚ)] := by
  have hst : (runIter infoW rgOk 10 6 sW).sleep_time = 23 := by
    rw [runIter_sleep_no_drift infoW rgOk 10 6 sW (by decide) (fun _ _ => by decide)]
    exact truncQ_eq_of 23 (by norm_num [frame_duration, infoW])
      (by norm_num [frame_duration, infoW]) (by norm_num [frame_duration, infoW])
  exact (c9_amended infoW rgOk 10 6 sW (by decide)).1 (by rw [hst]; decide)

/- ### C8 -/

/-- C8: when the fetch path runs and the reader reports either of its two
error kinds (`ReaderClosed`, `OutOfBoundsFrame` — the only kinds there are),
`getFrame` swallows the error and returns the empty frame; no error
propagates out of `getFrame`. -/
theorem c8_soft_errors (info : ReaderInfo) (rg : Int → Except FrameError Frame)
    (s : PlayerState) (e : FrameError)
    (hmiss : (getFrame info rg s).fetched = true)
    (herr : rg (advancePos info s.video_position s.speed) = Except.error e) :
    (getFrame info rg s).ret = none ∧
    (e = FrameError.ReaderClosed ∨ e = FrameError.OutOfBoundsFrame) := by
  refine ⟨?_, by cases e <;> simp⟩
  unfold getFrame fetchFrame at hmiss ⊢
  cases hfr : s.frame with
  | none => simp [hfr, herr]
  | some f =>
    by_cases hc : f.number = advancePos info s.video_position s.speed ∧
        advancePos info s.video_position s.speed = s.last_video_position
    · rw [hfr] at hmiss
      simp [hc] at hmiss
    · simp [hfr, hc, herr]

/-- C8 witness: a released reader (`ReaderClosed` on every request) makes
`getFrame` return the empty frame. -/
theorem c8_witness :
    (getFrame infoW rgErr sW).ret = none ∧
    (FrameError.ReaderClosed = FrameError.ReaderClosed ∨
      FrameError.ReaderClosed = FrameError.OutOfBoundsFrame) :=
  c8_soft_errors infoW rgErr sW FrameError.ReaderClosed (by decide) rfl

end PlayerPrivate
